import Mathlib

/-!
Verification of the Nebulae multi-agent orchestration scaffolding
(`src/agents/base_agent.py`, `src/agents/planner_agent.py`,
`src/agents/summarizer_agent.py`) against its natural-language
specification.

The Python values handled by the agents (task dicts, payloads, config
dicts, schemas) are embedded as a JSON-like inductive type.  Python
exceptions are embedded as `Except String`; the string is the kind of
exception raised.  Numbers are embedded as `Int`: every number appearing
in the repository's tasks, payloads and schemas is an integer.
Recursive traversals of `Json` values are written with an explicit fuel
argument (structural recursion on the fuel, so every definition
evaluates by `rfl`); the public entry points supply `pyRecLimit` as
fuel.  This mirrors CPython: recursive traversals (`==` on nested
containers, `jsonschema.validate` on nested schemas) raise
`RecursionError` past the interpreter's recursion limit (1000 by
default), and the agents' callers catch such exceptions.  No value in
this repository comes anywhere near that depth, and no theorem below
depends on the behaviour at the limit.
-/

/-- CPython's default recursion limit, used as traversal fuel. -/
def pyRecLimit : Nat := 1000

/-- A Python/JSON value as the agents manipulate them: `None`, booleans,
integers, strings, lists and dicts (dicts kept as insertion-ordered
association lists, as Python dicts are). -/
inductive Json where
  | null : Json
  | bool : Bool → Json
  | num : Int → Json
  | str : String → Json
  | arr : List Json → Json
  | obj : List (String × Json) → Json

/-- Python `==` on embedded values, by fuel over the left value's depth. -/
def jsonEqF : Nat → Json → Json → Bool
  | 0, _, _ => false
  | _ + 1, Json.null, Json.null => true
  | _ + 1, Json.bool x, Json.bool y => x == y
  | _ + 1, Json.num x, Json.num y => x == y
  | _ + 1, Json.str x, Json.str y => x == y
  | fuel + 1, Json.arr xs, Json.arr ys =>
    xs.length == ys.length && (xs.zip ys).all (fun p => jsonEqF fuel p.1 p.2)
  | fuel + 1, Json.obj xs, Json.obj ys =>
    xs.length == ys.length &&
      (xs.zip ys).all (fun p => p.1.1 == p.2.1 && jsonEqF fuel p.1.2 p.2.2)
  | _ + 1, _, _ => false

/-- Python `==` on embedded values. -/
def Json.eqb (a b : Json) : Bool := jsonEqF pyRecLimit a b

/-- First-match lookup in an association list (Python dicts keep keys
unique, so this is dict lookup on dicts built by the code). -/
def alistLookup : List (String × Json) → String → Option Json
  | [], _ => none
  | (k', v) :: rest, k => if k' = k then some v else alistLookup rest k

/-- `d[k] = v` on a Python dict: overwrite in place if the key exists,
append otherwise. -/
def alistSet : List (Json × Json) → Json → Json → List (Json × Json)
  | [], k, v => [(k, v)]
  | (k', v') :: rest, k, v =>
    if Json.eqb k' k then (k', v) :: rest else (k', v') :: alistSet rest k v

/-- Python truthiness (`bool(v)`): `None`, `False`, `0`, `""`, `[]` and
`{}` are falsy, everything else truthy. -/
def truthy : Json → Bool
  | Json.null => false
  | Json.bool b => b
  | Json.num n => n != 0
  | Json.str s => s != ""
  | Json.arr xs => !xs.isEmpty
  | Json.obj kvs => !kvs.isEmpty

/-- `d.get(k, default)` where the receiver is known to be a dict.  The
planner only calls this where a dict is guaranteed (`select_agent_for_task`
reads `task.get("payload", {})` only after `can_handle` confirmed the task
is a dict). -/
def dictGetD (j : Json) (k : String) (default : Json) : Json :=
  match j with
  | Json.obj kvs => (alistLookup kvs k).getD default
  | _ => default

/-- `d.get(k, default)` on an arbitrary value: raises `AttributeError`
when the receiver is not a dict (lists, strings and numbers have no
`.get`). -/
def pyGet (j : Json) (k : String) (default : Json) : Except String Json :=
  match j with
  | Json.obj kvs => Except.ok ((alistLookup kvs k).getD default)
  | _ => Except.error "AttributeError"

/-- Python `str(v)` restricted to the shapes that reach the planner's
f-string (task ids are strings in every task the planner builds). -/
def pyStr : Json → String
  | Json.str s => s
  | Json.null => "None"
  | Json.bool true => "True"
  | Json.bool false => "False"
  | Json.num n => toString n
  | Json.arr _ => "[...]"
  | Json.obj _ => "\x7b...\x7d"

/-- Python slicing `s[:n]` on a string, by characters. -/
def pyTake (s : String) (n : Nat) : String := ⟨s.data.take n⟩

/-! ## A model of `jsonschema.validate`

`BaseAgent.validate_input` and `PlannerAgent.dispatch_task` call the
external `jsonschema` library.  `schemaCheck` models it on the keyword
subset that appears in this repository's schemas: `type`, `required`,
`properties`, `items`, `minItems`, `maxItems`, `minimum` and `enum`;
unknown keywords (such as `format`, which the default validator does not
enforce) are ignored, exactly as `jsonschema` ignores them.  A schema
that is not a dict or a boolean makes `jsonschema.validate` raise, which
the callers catch and turn into `False`/`RuntimeError`; the checker
returns `false` there. -/

/-- Does an instance match a JSON-schema `type` string? -/
def jsonTypeMatches (t : String) (j : Json) : Bool :=
  match t, j with
  | "object", Json.obj _ => true
  | "array", Json.arr _ => true
  | "string", Json.str _ => true
  | "integer", Json.num _ => true
  | "number", Json.num _ => true
  | "boolean", Json.bool _ => true
  | "null", Json.null => true
  | _, _ => false

/-- Validate an instance against a schema value; fuel bounds the nesting
depth of subschema recursion (`properties`, `items`). -/
def schemaCheckF : Nat → Json → Json → Bool
  | 0, _, _ => false
  | _ + 1, Json.bool b, _ => b
  | fuel + 1, Json.obj kvs, inst =>
    kvs.all (fun kv =>
      match kv.1, kv.2 with
      | "type", Json.str t => jsonTypeMatches t inst
      | "type", Json.arr ts =>
        ts.any (fun t => match t with
          | Json.str s => jsonTypeMatches s inst
          | _ => false)
      | "required", Json.arr req =>
        (match inst with
         | Json.obj ikvs =>
           req.all (fun r => match r with
             | Json.str s => (alistLookup ikvs s).isSome
             | _ => false)
         | _ => true)
      | "properties", Json.obj props =>
        (match inst with
         | Json.obj ikvs =>
           props.all (fun p =>
             match alistLookup ikvs p.1 with
             | some v => schemaCheckF fuel p.2 v
             | none => true)
         | _ => true)
      | "items", Json.obj s =>
        (match inst with
         | Json.arr xs => xs.all (fun x => schemaCheckF fuel (Json.obj s) x)
         | _ => true)
      | "minItems", Json.num n =>
        (match inst with
         | Json.arr xs => decide (n ≤ (xs.length : Int))
         | _ => true)
      | "maxItems", Json.num n =>
        (match inst with
         | Json.arr xs => decide ((xs.length : Int) ≤ n)
         | _ => true)
      | "minimum", Json.num m =>
        (match inst with
         | Json.num i => decide (m ≤ i)
         | _ => true)
      | "enum", Json.arr vs => vs.any (fun v => Json.eqb v inst)
      | _, _ => true)
  | _ + 1, _, _ => false

/-- `jsonschema.validate(instance, schema)` succeeding, as a Boolean:
`true` when validation passes, `false` when it raises. -/
def schemaCheck (schema inst : Json) : Bool := schemaCheckF pyRecLimit schema inst

/-! ## The agent model

`BaseAgent.__init__` stores, for the orchestration surface: the agent's
name, its capability list, its input/output schemas (read from the
config dict; `None` when absent) and its execution entrypoint.
Capabilities are strings in every configuration of the repository.
`execute_task` is each concrete agent's entrypoint (abstract in
`BaseAgent`); the claims under verification assume deterministic
entrypoints, so it is embedded as a function. -/
structure Agent where
  agent_name : String
  capabilities : List String
  input_schema : Json
  output_schema : Json
  execute_task : Json → Except String Json

/-- `BaseAgent.can_handle`: `False` unless the task is a dict whose
`"task_type"` entry is truthy and a member of the agent's capability
list (`bool(task_type and task_type in self.capabilities)`). -/
def can_handle (a : Agent) (task : Json) : Bool :=
  match task with
  | Json.obj kvs =>
    let task_type := (alistLookup kvs "task_type").getD Json.null
    truthy task_type && a.capabilities.any (fun c => Json.eqb task_type (Json.str c))
  | _ => false

/-- The body of `BaseAgent.validate_input`, parameterised by the
schema: `True` when no (truthy) input schema is declared; otherwise
`jsonschema.validate`, with any exception caught and turned into
`False`. -/
def validate_against (schema payload : Json) : Bool :=
  if !truthy schema then true
  else schemaCheck schema payload

/-- `BaseAgent.validate_input`: validate the payload against the agent's
own input schema. -/
def validate_input (a : Agent) (payload : Json) : Bool :=
  validate_against a.input_schema payload

/-! ## The planner

`PlannerAgent` holds a registry (a list of agents, in registration
order) and dispatches the tasks of a decomposed goal. -/

/-- `PlannerAgent.decompose_goal`: one hardcoded `summarize_text` task,
whatever the goal says. -/
def decompose_goal (_goal : String) : List Json :=
  [Json.obj [("task_id", Json.str "t1"), ("task_type", Json.str "summarize_text"),
             ("payload", Json.obj [("documents", Json.arr []),
                                   ("summary_length", Json.str "short")]),
             ("dependencies", Json.arr []), ("priority", Json.num 50)]]

/-- `PlannerAgent.select_agent_for_task`: capability filter, then payload
validation filter, then the first valid candidate (registry order). -/
def select_agent_for_task (registry : List Agent) (task : Json) : Option Agent :=
  let candidates := registry.filter (fun a => can_handle a task)
  if candidates.isEmpty then none
  else
    let payload := dictGetD task "payload" (Json.obj [])
    let valid_candidates := candidates.filter (fun a => validate_input a payload)
    if valid_candidates.isEmpty then none
    else valid_candidates.head?

/-- `PlannerAgent.dispatch_task`: run the agent's `execute_task`
entrypoint (every agent of the repository implements it, so the
`run_task` fallback branch is dead), then, when the agent declares a
truthy output schema, validate the result against it; a validation
exception is re-raised as `RuntimeError("Output validation failed...")`,
left to the caller. -/
def dispatch_task (agent : Agent) (task : Json) : Except String Json := do
  let result ← agent.execute_task task
  if truthy agent.output_schema then
    if schemaCheck agent.output_schema result then Except.ok result
    else Except.error "Output validation failed"
  else Except.ok result

/-- The loop body of `PlannerAgent.plan_and_execute`: for each task in
order, select an agent (raising `RuntimeError` when none is found),
dispatch, and record the result in the results dict under the task's
id. -/
def planLoop (registry : List Agent) : List Json → List (Json × Json) →
    Except String (List (Json × Json))
  | [], results => Except.ok results
  | task :: rest, results =>
    match select_agent_for_task registry task with
    | none =>
      Except.error ("No agent available to handle task " ++
        pyStr (dictGetD task "task_id" Json.null))
    | some agent => do
      let res ← dispatch_task agent task
      planLoop registry rest (alistSet results (dictGetD task "task_id" Json.null) res)

/-- `PlannerAgent.plan_and_execute`: decompose the goal, then run the
loop with an empty results dict. -/
def plan_and_execute (registry : List Agent) (goal : String) :
    Except String (List (Json × Json)) :=
  planLoop registry (decompose_goal goal) []

/-- `planLoop`, instrumented with a dispatch trace: the list of
(task id, selected agent name) pairs in dispatch order, recorded at the
moment `dispatch_task` is invoked.  The second component is exactly
`planLoop`'s outcome. -/
def planLoopT (registry : List Agent) : List Json → List (Json × Json) →
    List (Json × String) → List (Json × String) × Except String (List (Json × Json))
  | [], results, trace => (trace, Except.ok results)
  | task :: rest, results, trace =>
    match select_agent_for_task registry task with
    | none =>
      (trace, Except.error ("No agent available to handle task " ++
        pyStr (dictGetD task "task_id" Json.null)))
    | some agent =>
      let trace' := trace ++ [(dictGetD task "task_id" Json.null, agent.agent_name)]
      match dispatch_task agent task with
      | Except.error e => (trace', Except.error e)
      | Except.ok res =>
        planLoopT registry rest (alistSet results (dictGetD task "task_id" Json.null) res) trace'

/-- `plan_and_execute` with its dispatch trace. -/
def plan_and_execute_trace (registry : List Agent) (goal : String) :
    List (Json × String) × Except String (List (Json × Json)) :=
  planLoopT registry (decompose_goal goal) [] []

/-! ## `BaseAgent.__init__`'s RAG resolution

`__init__` sets `self.rag_enabled = True` when the constructor argument
is not `None` and truthy; otherwise it reads
`config.get("rag", {}).get("enabled", config.get("rag_enabled", False))`
and applies `bool(...)`.  The constructor argument is embedded as
`Option Bool` (`none` is an explicit `None`, the Python default of an
omitted argument is `some false`).  A present `"rag"` key that is not a
dict would make `.get` raise `AttributeError`. -/
def resolve_rag_enabled (rag_enabled : Option Bool) (config : List (String × Json)) :
    Except String Bool :=
  if rag_enabled.getD false then Except.ok true
  else
    match alistLookup config "rag" with
    | some (Json.obj ragKvs) =>
      (match alistLookup ragKvs "enabled" with
       | some v => Except.ok (truthy v)
       | none =>
         Except.ok (truthy ((alistLookup config "rag_enabled").getD (Json.bool false))))
    | some _ => Except.error "AttributeError"
    | none =>
      Except.ok (truthy ((alistLookup config "rag_enabled").getD (Json.bool false)))

/-! ## `SummarizerAgent.execute_task`

The minimal summarizer: validate the payload against the agent's input
schema (raising `ValueError` on failure), join the documents' texts with
blank lines, truncate past 800 characters with a `"..."` suffix, and
return summary, highlights (first 200 characters of each text, at most
three) and sources. -/

/-- `for d in documents`: Python iteration over an arbitrary value —
lists yield their elements, strings their one-character substrings,
dicts their keys; other values raise `TypeError`. -/
def pyIterate : Json → Except String (List Json)
  | Json.arr xs => Except.ok xs
  | Json.str s => Except.ok (s.data.map (fun c => Json.str (String.singleton c)))
  | Json.obj kvs => Except.ok (kvs.map (fun kv => Json.str kv.1))
  | _ => Except.error "TypeError"

/-- An element of `"\n\n".join(...)`'s argument must be a string, else
`join` raises `TypeError`. -/
def pyAsStr : Json → Except String String
  | Json.str s => Except.ok s
  | _ => Except.error "TypeError"

/-- A Python comprehension over already-iterated elements: left to
right, the first exception aborts the whole comprehension. -/
def exceptMapM {α : Type} (f : Json → Except String α) :
    List Json → Except String (List α)
  | [] => Except.ok []
  | x :: xs => do
    let y ← f x
    let ys ← exceptMapM f xs
    Except.ok (y :: ys)

/-- The summarizer's entrypoint; `input_schema` is the agent's own
(`self.validate_input` reads `self.input_schema`). -/
def summarizer_execute_task (input_schema : Json) (task : Json) :
    Except String Json := do
  let payload ← pyGet task "payload" (Json.obj [])
  if !validate_against input_schema payload then
    Except.error "Invalid payload for SummarizerAgent"
  else do
    let documentsVal ← pyGet payload "documents" (Json.arr [])
    let documents ← pyIterate documentsVal
    let texts ← exceptMapM (fun d => do
      let t ← pyGet d "text" (Json.str "")
      pyAsStr t) documents
    let combined := String.intercalate "\n\n" texts
    let summary := if combined.length > 800 then pyTake combined 800 ++ "..." else combined
    let highlights ← exceptMapM (fun d => do
      let t ← pyGet d "text" (Json.str "")
      let s ← pyAsStr t
      Except.ok (Json.str (pyTake s 200))) documents
    let sources ← exceptMapM (fun d => do
      let i ← pyGet d "id" Json.null
      let t ← pyGet d "title" Json.null
      Except.ok (Json.obj [("id", i), ("title", t)])) documents
    Except.ok (Json.obj [("summary", Json.str summary),
                         ("highlights", Json.arr (highlights.take 3)),
                         ("sources", Json.arr sources)])

/-! ## Helpers for the summarizer's shape -/

/-- The text the summarizer reads from a document dict
(`d.get("text", "")` when that value is a string). -/
def docText : Json → String
  | Json.obj kvs =>
    (match alistLookup kvs "text" with
     | some (Json.str s) => s
     | some _ => ""
     | none => "")
  | _ => ""

/-- The source entry the summarizer builds from a document dict. -/
def docSource : Json → Json
  | Json.obj kvs =>
    Json.obj [("id", (alistLookup kvs "id").getD Json.null),
              ("title", (alistLookup kvs "title").getD Json.null)]
  | _ => Json.null

/-- A document the summarizer can process without raising: a dict whose
`"text"` value, when present, is a string. -/
def DocShaped (d : Json) : Prop :=
  ∃ kvs, d = Json.obj kvs ∧ ∀ t, alistLookup kvs "text" = some t → ∃ s, t = Json.str s

/-! ## Concrete instances

The decomposed task and the summarizer agent as configured in
`src/tests/test_agents_validation.py`, used as concrete inputs for the
theorems below. -/

/-- The single task `decompose_goal` produces, for every goal. -/
def t1Task : Json :=
  Json.obj [("task_id", Json.str "t1"), ("task_type", Json.str "summarize_text"),
            ("payload", Json.obj [("documents", Json.arr []),
                                  ("summary_length", Json.str "short")]),
            ("dependencies", Json.arr []), ("priority", Json.num 50)]

/-- `t1Task`'s payload. -/
def t1Payload : Json :=
  Json.obj [("documents", Json.arr []), ("summary_length", Json.str "short")]

/-- The summarizer's input schema from the test configuration. -/
def summInputSchema : Json :=
  Json.obj [("type", Json.str "object"),
            ("required", Json.arr [Json.str "documents"]),
            ("properties", Json.obj [("documents", Json.obj [("type", Json.str "array")])])]

/-- The summarizer's output schema from the test configuration. -/
def summOutputSchema : Json :=
  Json.obj [("type", Json.str "object"),
            ("required", Json.arr [Json.str "summary"]),
            ("properties", Json.obj [("summary", Json.obj [("type", Json.str "string")])])]

/-- The `SummarizerAgent` of the tests. -/
def summAgent : Agent :=
  { agent_name := "Summ", capabilities := ["summarize_text"],
    input_schema := summInputSchema, output_schema := summOutputSchema,
    execute_task := summarizer_execute_task summInputSchema }

/-- What the summarizer returns on `t1Task`'s empty document list. -/
def summResultKvs : List (String × Json) :=
  [("summary", Json.str ""), ("highlights", Json.arr []), ("sources", Json.arr [])]

/-- `summResultKvs` as a value. -/
def summResult : Json := Json.obj summResultKvs

/-- A `SummarizerAgent` constructed with no input schema and an output
schema its own results never satisfy (`BaseAgent` accepts any config
dict, so nothing stops this construction). -/
def mismatchedAgent : Agent :=
  { agent_name := "SummMisconfigured", capabilities := ["summarize_text"],
    input_schema := Json.null,
    output_schema := Json.obj [("type", Json.str "object"),
                               ("required", Json.arr [Json.str "documents"])],
    execute_task := summarizer_execute_task Json.null }

/-- A document as built by the tests' `make_doc`. -/
def wDoc : Json :=
  Json.obj [("id", Json.str "d1"), ("title", Json.str "Doc 1"),
            ("text", Json.str "This is the content of document 1.")]

/-- A one-document summarize payload. -/
def wPayload : Json := Json.obj [("documents", Json.arr [wDoc])]

/-- A summarize task carrying `wPayload`. -/
def wTask : Json :=
  Json.obj [("task_id", Json.str "t-sum"), ("task_type", Json.str "summarize_text"),
            ("payload", wPayload)]

/-! ## Helper lemmas -/

/-- Comparing any value with a string under Python `==` succeeds exactly
on that string (no recursion: `==` checks the types first). -/
theorem Json.eqb_str_right (v : Json) (c : String) :
    Json.eqb v (Json.str c) = true ↔ v = Json.str c := by
  have hfuel : pyRecLimit = 999 + 1 := rfl
  unfold Json.eqb
  rw [hfuel]
  cases v <;> simp [jsonEqF]

/-- The two-stage filter of `select_agent_for_task`, collapsed: first
match of the conjoined predicate. -/
theorem filter_pipeline_first (l : List Agent) (p q : Agent → Bool) :
    (if (l.filter p).isEmpty then none
     else if ((l.filter p).filter q).isEmpty then none
     else ((l.filter p).filter q).head?)
    = (l.filter (fun a => p a && q a)).head? := by
  have key : (l.filter p).filter q = l.filter (fun a => p a && q a) := by
    rw [List.filter_filter]
    exact List.filter_congr (fun a _ => Bool.and_comm (q a) (p a))
  by_cases h1 : (l.filter p).isEmpty
  · rw [if_pos h1]
    have hp := List.isEmpty_iff.mp h1
    rw [List.filter_eq_nil_iff] at hp
    have hnil : l.filter (fun a => p a && q a) = [] := by
      rw [List.filter_eq_nil_iff]
      intro a ha hc
      exact hp a ha (by revert hc; cases p a <;> simp)
    rw [hnil]
    rfl
  · rw [if_neg h1, key]
    by_cases h2 : (l.filter (fun a => p a && q a)).isEmpty
    · rw [if_pos h2, List.isEmpty_iff.mp h2]
      rfl
    · rw [if_neg h2]

/-- `select_agent_for_task` is the first registry agent passing both the
capability check and the payload validation. -/
theorem select_agent_spec (registry : List Agent) (task : Json) :
    select_agent_for_task registry task =
      (registry.filter (fun a => can_handle a task &&
        validate_input a (dictGetD task "payload" (Json.obj [])))).head? := by
  unfold select_agent_for_task
  exact filter_pipeline_first registry _ _

/-- `select_agent_for_task` returns `None` exactly when no registry
agent passes both filters. -/
theorem select_agent_none_iff (registry : List Agent) (task : Json) :
    select_agent_for_task registry task = none ↔
      ∀ a ∈ registry, ¬(can_handle a task = true ∧
        validate_input a (dictGetD task "payload" (Json.obj [])) = true) := by
  rw [select_agent_spec, List.head?_eq_none_iff, List.filter_eq_nil_iff]
  simp only [Bool.and_eq_true]

/-- `decompose_goal` yields the single `t1Task`, for any goal. -/
theorem decompose_goal_eq (g : String) : decompose_goal g = [t1Task] := rfl

/-- Characters of a Python slice `s[:n]`: at most `n`. -/
theorem pyTake_length (s : String) (n : Nat) : (pyTake s n).length = min n s.length := by
  cases s with
  | mk data =>
    show (data.take n).length = min n (String.length ⟨data⟩)
    rw [List.length_take]
    rfl

/-- Extracting the texts of shaped documents never raises and yields
`docText` of each. -/
theorem exceptMapM_text (docs : List Json) (hs : ∀ d ∈ docs, DocShaped d) :
    exceptMapM (fun d => do
      let t ← pyGet d "text" (Json.str "")
      pyAsStr t) docs = Except.ok (docs.map docText) := by
  induction docs with
  | nil => rfl
  | cons d ds ih =>
    obtain ⟨kvs, hd, htext⟩ := hs d (List.mem_cons_self d ds)
    subst hd
    have hstep : (do
        let t ← pyGet (Json.obj kvs) "text" (Json.str "")
        pyAsStr t) = Except.ok (docText (Json.obj kvs)) := by
      cases hl : alistLookup kvs "text" with
      | none => simp [pyGet, hl, docText, pyAsStr, Bind.bind, Except.bind]
      | some t =>
        obtain ⟨s, rfl⟩ := htext t hl
        simp [pyGet, hl, docText, pyAsStr, Bind.bind, Except.bind]
    simp only [exceptMapM]
    rw [hstep, ih (fun d hd => hs d (List.mem_cons_of_mem _ hd))]
    rfl

/-- Extracting the highlights of shaped documents never raises. -/
theorem exceptMapM_highlight (docs : List Json) (hs : ∀ d ∈ docs, DocShaped d) :
    exceptMapM (fun d => do
      let t ← pyGet d "text" (Json.str "")
      let s ← pyAsStr t
      Except.ok (Json.str (pyTake s 200))) docs =
    Except.ok (docs.map (fun d => Json.str (pyTake (docText d) 200))) := by
  induction docs with
  | nil => rfl
  | cons d ds ih =>
    obtain ⟨kvs, hd, htext⟩ := hs d (List.mem_cons_self d ds)
    subst hd
    have hstep : (do
        let t ← pyGet (Json.obj kvs) "text" (Json.str "")
        let s ← pyAsStr t
        Except.ok (Json.str (pyTake s 200))) =
        Except.ok (Json.str (pyTake (docText (Json.obj kvs)) 200)) := by
      cases hl : alistLookup kvs "text" with
      | none => simp [pyGet, hl, docText, pyAsStr, Bind.bind, Except.bind]
      | some t =>
        obtain ⟨s, rfl⟩ := htext t hl
        simp [pyGet, hl, docText, pyAsStr, Bind.bind, Except.bind]
    simp only [exceptMapM]
    rw [hstep, ih (fun d hd => hs d (List.mem_cons_of_mem _ hd))]
    rfl

/-- Building the sources of shaped documents never raises. -/
theorem exceptMapM_sources (docs : List Json) (hs : ∀ d ∈ docs, DocShaped d) :
    exceptMapM (fun d => do
      let i ← pyGet d "id" Json.null
      let t ← pyGet d "title" Json.null
      Except.ok (Json.obj [("id", i), ("title", t)])) docs =
    Except.ok (docs.map docSource) := by
  induction docs with
  | nil => rfl
  | cons d ds ih =>
    obtain ⟨kvs, hd, -⟩ := hs d (List.mem_cons_self d ds)
    subst hd
    simp only [exceptMapM]
    rw [ih (fun d hd => hs d (List.mem_cons_of_mem _ hd))]
    rfl

/-! ## Claims -/

/-- C1: `select_agent_for_task` filters the registry by capability, then
by input-schema validation of the task's payload, and returns the first
surviving candidate in registry order; it returns `None` exactly when no
agent passes both filters. -/
theorem C1_select_agent_filters_then_first (registry : List Agent) (task : Json) :
    (select_agent_for_task registry task =
      (registry.filter (fun a => can_handle a task &&
        validate_input a (dictGetD task "payload" (Json.obj [])))).head?) ∧
    (select_agent_for_task registry task = none ↔
      ∀ a ∈ registry, ¬(can_handle a task = true ∧
        validate_input a (dictGetD task "payload" (Json.obj [])) = true)) :=
  ⟨select_agent_spec registry task, select_agent_none_iff registry task⟩

/-- C4: an agent with no declared input schema (absent, i.e. `None`, or
an empty dict) accepts any payload. -/
theorem C4_no_input_schema_accepts_any_payload (a : Agent) (payload : Json)
    (h : a.input_schema = Json.null ∨ a.input_schema = Json.obj []) :
    validate_input a payload = true := by
  rcases h with h | h <;> simp [validate_input, validate_against, truthy, h]

/-- C4 witness: the schema-less summarizer accepts an integer payload. -/
theorem C4_witness :
    mismatchedAgent.input_schema = Json.null ∧
    validate_input mismatchedAgent (Json.num 7) = true :=
  ⟨rfl, C4_no_input_schema_accepts_any_payload mismatchedAgent (Json.num 7) (Or.inl rfl)⟩

/-- C6: `decompose_goal` returns the one hardcoded `summarize_text` task
(`task_id` `"t1"`, no dependencies, priority 50) whatever the goal. -/
theorem C6_decompose_goal_hardcoded (goal : String) :
    decompose_goal goal =
      [Json.obj [("task_id", Json.str "t1"), ("task_type", Json.str "summarize_text"),
                 ("payload", Json.obj [("documents", Json.arr []),
                                       ("summary_length", Json.str "short")]),
                 ("dependencies", Json.arr []), ("priority", Json.num 50)]] := rfl

/-- C8: with a falsy (or `None`) `rag_enabled` argument the nested
config key `rag.enabled` — or its alias `rag_enabled` — decides the
flag, and a truthy argument always wins over any config. -/
theorem C8_rag_config_overrides_falsy_argument :
    resolve_rag_enabled (some false) [("rag", Json.obj [("enabled", Json.bool true)])] =
      Except.ok true ∧
    resolve_rag_enabled (some false) [("rag_enabled", Json.bool true)] = Except.ok true ∧
    resolve_rag_enabled none [("rag", Json.obj [("enabled", Json.bool true)])] =
      Except.ok true ∧
    ∀ config, resolve_rag_enabled (some true) config = Except.ok true :=
  ⟨rfl, rfl, rfl, fun _ => rfl⟩

/-- C10: `can_handle` is a total Boolean function (the embedding is
total, as the source guards every partial operation), true exactly when
the task is a dict whose `"task_type"` is a nonempty string among the
agent's capabilities. -/
theorem C10_can_handle_total_characterisation (a : Agent) (task : Json) :
    can_handle a task = true ↔
      ∃ kvs s, task = Json.obj kvs ∧
        alistLookup kvs "task_type" = some (Json.str s) ∧
        s ≠ "" ∧ s ∈ a.capabilities := by
  cases task with
  | obj kvs =>
    simp only [can_handle]
    cases hl : alistLookup kvs "task_type" with
    | none =>
      simp only [hl, Option.getD_none, truthy, Bool.false_and, Bool.false_eq_true,
        false_iff]
      rintro ⟨kvs', s, heq, hlook, -, -⟩
      cases heq
      rw [hl] at hlook
      exact Option.noConfusion hlook
    | some v =>
      simp only [hl, Option.getD_some, Bool.and_eq_true, List.any_eq_true]
      constructor
      · rintro ⟨ht, c, hc, he⟩
        have hv := (Json.eqb_str_right v c).mp he
        subst hv
        refine ⟨kvs, c, rfl, hl, ?_, hc⟩
        simpa [truthy] using ht
      · rintro ⟨kvs', s, heq, hlook, hne, hmem⟩
        cases heq
        rw [hl] at hlook
        cases hlook
        exact ⟨by simp [truthy, hne], s, hmem, (Json.eqb_str_right _ _).mpr rfl⟩
  | null => simp [can_handle]
  | bool b => simp [can_handle]
  | num n => simp [can_handle]
  | str s => simp [can_handle]
  | arr xs => simp [can_handle]

/-- C2 counterexample: when no registered agent can handle the
decomposed task, `plan_and_execute` raises `RuntimeError` — the call
aborts with an exception and returns no plan result recording the
per-task error (and `plan_and_execute_trace` shows no dispatch was
attempted). -/
theorem C2_counterexample :
    plan_and_execute [] "any goal" =
      Except.error "No agent available to handle task t1" ∧
    plan_and_execute_trace [] "any goal" =
      ([], Except.error "No agent available to handle task t1") :=
  ⟨rfl, rfl⟩

/-- C2 amended: when no registered agent passes both selection filters
for the decomposed task, `plan_and_execute` fails immediately with the
no-capable-agent `RuntimeError`, before any dispatch attempt (the trace
is empty) and with no retry — but the error aborts the whole call
instead of being recorded in a returned plan result. -/
theorem C2_amended_no_capable_agent_aborts (goal : String) (registry : List Agent)
    (h : ∀ a ∈ registry, ¬(can_handle a t1Task = true ∧
      validate_input a (dictGetD t1Task "payload" (Json.obj [])) = true)) :
    plan_and_execute_trace registry goal =
      ([], Except.error "No agent available to handle task t1") ∧
    plan_and_execute registry goal =
      Except.error "No agent available to handle task t1" := by
  have hsel : select_agent_for_task registry t1Task = none :=
    (select_agent_none_iff registry t1Task).mpr h
  constructor
  · unfold plan_and_execute_trace
    rw [decompose_goal_eq]
    unfold planLoopT
    rw [hsel]
    rfl
  · unfold plan_and_execute
    rw [decompose_goal_eq]
    unfold planLoop
    rw [hsel]
    rfl

/-- C2 witness: the empty registry has no capable agent. -/
theorem C2_witness :
    plan_and_execute_trace [] "goal" =
      ([], Except.error "No agent available to handle task t1") ∧
    plan_and_execute [] "goal" =
      Except.error "No agent available to handle task t1" :=
  C2_amended_no_capable_agent_aborts "goal" [] (by simp)

/-- C3: with the registry held fixed (same agents, same order, same
configurations — agent entrypoints are embedded as functions, i.e.
deterministic as the claim assumes), two runs on the same goal select
the same agent for every task, dispatch in the same order and return
equal result mappings. -/
theorem C3_deterministic_replay (goal : String) (r1 r2 : List Agent) (h : r1 = r2) :
    (∀ task, select_agent_for_task r1 task = select_agent_for_task r2 task) ∧
    plan_and_execute_trace r1 goal = plan_and_execute_trace r2 goal ∧
    plan_and_execute r1 goal = plan_and_execute r2 goal := by
  subst h
  exact ⟨fun _ => rfl, rfl, rfl⟩

/-- C3 witness: two runs over the test summarizer registry. -/
theorem C3_witness :
    (∀ task, select_agent_for_task [summAgent] task =
      select_agent_for_task [summAgent] task) ∧
    plan_and_execute_trace [summAgent] "Summarize the docs" =
      plan_and_execute_trace [summAgent] "Summarize the docs" ∧
    plan_and_execute [summAgent] "Summarize the docs" =
      plan_and_execute [summAgent] "Summarize the docs" :=
  C3_deterministic_replay "Summarize the docs" [summAgent] [summAgent] rfl

/-- C5 counterexample: an output-schema mismatch makes `dispatch_task`
raise `RuntimeError`, and `plan_and_execute` (which installs no handler)
aborts with it — the attempt's failure is not recorded anywhere. -/
theorem C5_counterexample :
    mismatchedAgent.execute_task t1Task = Except.ok summResult ∧
    schemaCheck mismatchedAgent.output_schema summResult = false ∧
    dispatch_task mismatchedAgent t1Task = Except.error "Output validation failed" ∧
    plan_and_execute [mismatchedAgent] "goal two" =
      Except.error "Output validation failed" :=
  ⟨rfl, rfl, rfl, rfl⟩

/-- C5 amended: after the entrypoint returns, `dispatch_task` validates
the result against a declared (truthy) output schema; on mismatch it
raises `RuntimeError("Output validation failed...")` — the exception
propagates to the caller rather than being treated as a recorded
attempt failure. -/
theorem C5_amended_output_mismatch_raises (agent : Agent) (task r : Json)
    (hexec : agent.execute_task task = Except.ok r)
    (hsch : truthy agent.output_schema = true) :
    dispatch_task agent task =
      (if schemaCheck agent.output_schema r then Except.ok r
       else Except.error "Output validation failed") := by
  unfold dispatch_task
  rw [hexec]
  show (if truthy agent.output_schema then
          if schemaCheck agent.output_schema r then Except.ok r
          else Except.error "Output validation failed"
        else Except.ok r) = _
  rw [hsch]
  simp

/-- C5 witness: the misconfigured summarizer's result fails its output
schema. -/
theorem C5_witness :
    dispatch_task mismatchedAgent t1Task =
      (if schemaCheck mismatchedAgent.output_schema summResult then Except.ok summResult
       else Except.error "Output validation failed") :=
  C5_amended_output_mismatch_raises mismatchedAgent t1Task summResult rfl rfl

/-- C7 counterexample: on a successful run the plan result maps the
task id to the agent's raw result dict — that entry has no `status` or
`attempts` field, and the returned value carries no overall plan
status, only the bare mapping. -/
theorem C7_counterexample :
    plan_and_execute [summAgent] "Summarize recent papers" =
      Except.ok [(Json.str "t1", summResult)] ∧
    alistLookup summResultKvs "status" = none ∧
    alistLookup summResultKvs "attempts" = none :=
  ⟨rfl, rfl, rfl⟩

/-- C7 amended: when `plan_and_execute` completes, its result is the
bare mapping from the decomposed task's id to the raw value returned by
`dispatch_task` for the selected agent — no per-task status or attempt
count, and no overall plan status. -/
theorem C7_amended_result_is_raw_mapping (registry : List Agent) (goal : String)
    (results : List (Json × Json))
    (h : plan_and_execute registry goal = Except.ok results) :
    ∃ agent r, select_agent_for_task registry t1Task = some agent ∧
      dispatch_task agent t1Task = Except.ok r ∧
      results = [(Json.str "t1", r)] := by
  unfold plan_and_execute at h
  rw [decompose_goal_eq] at h
  unfold planLoop at h
  cases hsel : select_agent_for_task registry t1Task with
  | none =>
    rw [hsel] at h
    exact absurd h (by simp)
  | some agent =>
    rw [hsel] at h
    have h' : (do
        let res ← dispatch_task agent t1Task
        planLoop registry [] (alistSet [] (dictGetD t1Task "task_id" Json.null) res)) =
        Except.ok results := h
    cases hdisp : dispatch_task agent t1Task with
    | error e =>
      rw [hdisp] at h'
      exact absurd h' (by simp [Bind.bind, Except.bind])
    | ok r =>
      rw [hdisp] at h'
      refine ⟨agent, r, rfl, hdisp, ?_⟩
      have h2 : (Except.ok [(Json.str "t1", r)] : Except String (List (Json × Json))) =
          Except.ok results := h'
      injection h2 with h3
      exact h3.symm

/-- C7 witness: the test summarizer registry completes and returns the
raw mapping. -/
theorem C7_witness :
    ∃ agent r, select_agent_for_task [summAgent] t1Task = some agent ∧
      dispatch_task agent t1Task = Except.ok r ∧
      ([(Json.str "t1", summResult)] : List (Json × Json)) = [(Json.str "t1", r)] :=
  C7_amended_result_is_raw_mapping [summAgent] "some goal" [(Json.str "t1", summResult)] rfl

/-- C9 counterexample: a payload that passes the summarizer's own input
schema (the tests' schema constrains `documents` to be an array, not its
elements) but whose document is not a dict makes `execute_task` raise
`AttributeError` instead of returning a result dict. -/
theorem C9_counterexample :
    validate_against summInputSchema (Json.obj [("documents", Json.arr [Json.num 5])]) =
      true ∧
    summarizer_execute_task summInputSchema
      (Json.obj [("payload", Json.obj [("documents", Json.arr [Json.num 5])])]) =
      Except.error "AttributeError" :=
  ⟨rfl, rfl⟩

/-- C9 amended: for a payload that passes input validation, is itself a
dict (so `payload.get` does not raise — `pyGet` succeeds only on dicts)
and whose `documents` value is a list of dicts with string `text`
values, `execute_task` returns a dict with keys `summary`, `highlights`
and `sources`; the summary is the texts joined with blank lines,
truncated to 800 characters plus `"..."` when longer (so at most 803
characters), and highlights are at most 3 entries of at most 200
characters each. -/
theorem C9_amended_summarizer_result_shape (ischema task payload : Json)
    (docs : List Json)
    (hpay : pyGet task "payload" (Json.obj []) = Except.ok payload)
    (hval : validate_against ischema payload = true)
    (hdocs : pyGet payload "documents" (Json.arr []) = Except.ok (Json.arr docs))
    (hs : ∀ d ∈ docs, DocShaped d) :
    ∃ summary : String,
      summarizer_execute_task ischema task =
        Except.ok (Json.obj [("summary", Json.str summary),
          ("highlights",
           Json.arr ((docs.map (fun d => Json.str (pyTake (docText d) 200))).take 3)),
          ("sources", Json.arr (docs.map docSource))]) ∧
      summary = (if (String.intercalate "\n\n" (docs.map docText)).length > 800
                 then pyTake (String.intercalate "\n\n" (docs.map docText)) 800 ++ "..."
                 else String.intercalate "\n\n" (docs.map docText)) ∧
      summary.length ≤ 803 ∧
      ((docs.map (fun d => Json.str (pyTake (docText d) 200))).take 3).length ≤ 3 ∧
      ∀ h ∈ (docs.map (fun d => Json.str (pyTake (docText d) 200))).take 3,
        ∃ s : String, h = Json.str s ∧ s.length ≤ 200 := by
  refine ⟨(if (String.intercalate "\n\n" (docs.map docText)).length > 800
           then pyTake (String.intercalate "\n\n" (docs.map docText)) 800 ++ "..."
           else String.intercalate "\n\n" (docs.map docText)), ?_, rfl, ?_, ?_, ?_⟩
  · unfold summarizer_execute_task
    rw [hpay]
    have bind_ok : ∀ (α β : Type) (a : α) (f : α → Except String β),
        Bind.bind (Except.ok a) f = f a := fun _ _ _ _ => rfl
    simp only [bind_ok]
    simp only [hval, Bool.not_true, Bool.false_eq_true, if_false]
    rw [hdocs]
    simp only [bind_ok]
    have hiter : pyIterate (Json.arr docs) = Except.ok docs := rfl
    simp only [hiter, bind_ok]
    simp only [exceptMapM_text docs hs, bind_ok]
    simp only [exceptMapM_highlight docs hs, bind_ok]
    simp only [exceptMapM_sources docs hs, bind_ok]
  · split
    · rw [String.length_append, pyTake_length]
      have h1 : min 800 (String.intercalate "\n\n" (docs.map docText)).length ≤ 800 :=
        Nat.min_le_left _ _
      have h2 : ("..." : String).length = 3 := rfl
      omega
    · next hlen =>
      simp only [Nat.not_lt] at *
      omega
  · rw [List.length_take]
    exact Nat.min_le_left _ _
  · intro h hmem
    have hm : h ∈ docs.map (fun d => Json.str (pyTake (docText d) 200)) :=
      List.mem_of_mem_take hmem
    rw [List.mem_map] at hm
    obtain ⟨d, -, rfl⟩ := hm
    refine ⟨pyTake (docText d) 200, rfl, ?_⟩
    rw [pyTake_length]
    exact Nat.min_le_left _ _

/-- C9 witness: the amended shape theorem at the tests' one-document
task. -/
theorem C9_witness :
    ∃ summary : String,
      summarizer_execute_task summInputSchema wTask =
        Except.ok (Json.obj [("summary", Json.str summary),
          ("highlights",
           Json.arr (([wDoc].map (fun d => Json.str (pyTake (docText d) 200))).take 3)),
          ("sources", Json.arr ([wDoc].map docSource))]) ∧
      summary = (if (String.intercalate "\n\n" ([wDoc].map docText)).length > 800
                 then pyTake (String.intercalate "\n\n" ([wDoc].map docText)) 800 ++ "..."
                 else String.intercalate "\n\n" ([wDoc].map docText)) ∧
      summary.length ≤ 803 ∧
      (([wDoc].map (fun d => Json.str (pyTake (docText d) 200))).take 3).length ≤ 3 ∧
      ∀ h ∈ ([wDoc].map (fun d => Json.str (pyTake (docText d) 200))).take 3,
        ∃ s : String, h = Json.str s ∧ s.length ≤ 200 :=
  C9_amended_summarizer_result_shape summInputSchema wTask wPayload [wDoc] rfl rfl rfl
    (by
      intro d hd
      simp only [List.mem_singleton] at hd
      subst hd
      exact ⟨_, rfl, fun t ht =>
        ⟨"This is the content of document 1.", (Option.some.inj ht).symm⟩⟩)
